import Mathlib

/-!
Verification of the BullMQ KEDA external scaler (`src/go/redis_bull_scaler.go`),
shallowly embedded in Lean 4.

The Go service exposes three gRPC operations (`IsActive`, `GetMetricSpec`,
`GetMetrics`).  Each operation receives caller metadata (a string-to-string
mapping) and reads list lengths from Redis via `LLen`.  We embed:

* the metadata mapping as `Metadata := String → Option String` (Go map lookup
  `v, ok := m[k]` becomes `m k : Option String`);
* the Redis client as `Store := String → Except String Int`: `LLen(ctx, key)`
  either returns an `int64` length or an error;
* Go's `(response, error)` return pairs as `Response × Option String`
  (`none` = nil error);
* `strconv.ParseInt(s, 10, 64)` as `parseInt64 : String → Option Int`
  (optional sign, non-empty decimal digits, 64-bit signed range; anything
  else, including overflow, is an error in Go and `none` here).

Each operation also has a traced variant (suffix `T`) that additionally
returns, in order, the list of store keys passed to `LLen` during the call;
the untraced operation is its first projection, so both share one control
flow, transcribed line by line from the Go source.
-/

/-- One decimal digit of `strconv.ParseInt`: its numeric value, or `none`. -/
def digitVal (c : Char) : Option Nat :=
  if c.isDigit then some (c.toNat - '0'.toNat) else none

/-- Accumulate decimal digits left to right, failing on a non-digit
(mirrors the digit loop of Go's `strconv.ParseInt` in base 10). -/
def parseDigitsAux : List Char → Nat → Option Nat
  | [], acc => some acc
  | c :: cs, acc =>
    match digitVal c with
    | some d => parseDigitsAux cs (acc * 10 + d)
    | none => none

/-- Model of Go's `strconv.ParseInt(s, 10, 64)`: an optional `+`/`-` sign
followed by one or more decimal digits, with the result required to fit in a
signed 64-bit integer; every other input (empty string, stray characters,
overflow) makes Go return a non-nil error, modelled as `none`. -/
def parseInt64 (s : String) : Option Int :=
  match s.toList with
  | [] => none
  | c :: cs =>
    let signDigits : Bool × List Char :=
      if c = '-' then (true, cs)
      else if c = '+' then (false, cs)
      else (false, c :: cs)
    match signDigits.2 with
    | [] => none
    | ds =>
      match parseDigitsAux ds 0 with
      | none => none
      | some n =>
        if signDigits.1 then
          if n ≤ 2 ^ 63 then some (-(n : Int)) else none
        else
          if n ≤ 2 ^ 63 - 1 then some (n : Int) else none

/-- Caller-supplied metadata mapping (`req.ScalerMetadata`): Go map lookup
with its presence bit becomes `Option String`. -/
def Metadata := String → Option String

/-- The external store: `LLen` on a key yields a length or an error
(Go: `s.redisClient.LLen(ctx, key).Result()`). -/
def Store := String → Except String Int

/-- `pb.ScaledObjectRef`: namespace and name are carried for logging only. -/
structure ScaledObjectRef where
  nspace : String
  name : String
  scalerMetadata : Metadata

/-- `pb.IsActiveResponse`. -/
structure IsActiveResponse where
  result : Bool
deriving DecidableEq, Repr

/-- `pb.MetricValue`. -/
structure MetricValue where
  metricName : String
  metricValue : Int
deriving DecidableEq, Repr

/-- `pb.GetMetricsResponse` (`&pb.GetMetricsResponse\x7b\x7d` is `⟨[]⟩`). -/
structure GetMetricsResponse where
  metricValues : List MetricValue
deriving DecidableEq, Repr

/-- `pb.MetricSpec`. -/
structure MetricSpec where
  metricName : String
  targetSize : Int
deriving DecidableEq, Repr

/-- `pb.GetMetricSpecResponse`. -/
structure GetMetricSpecResponse where
  metricSpecs : List MetricSpec
deriving DecidableEq, Repr

/-- `getMetadataValue` from the source: return the value mapped to `key`,
or an error naming the key when the key is absent or maps to `""`. -/
def getMetadataValue (metadata : Metadata) (key : String) : Except String String :=
  match metadata key with
  | none => .error ("required metadata " ++ key ++ " is missing or empty")
  | some value =>
    if value = "" then .error ("required metadata " ++ key ++ " is missing or empty")
    else .ok value

/-- `validatePortNumber` from the source: `strconv.Atoi` (on a 64-bit
platform, `ParseInt(s, 10, 64)`) then a range check `1 ≤ port ≤ 65535`. -/
def validatePortNumber (portStr : String) : Except String Unit :=
  match parseInt64 portStr with
  | none => .error ("port must be a valid number, got: " ++ portStr)
  | some port =>
    if port ≤ 0 ∨ port > 65535 then
      .error ("port must be between 1 and 65535, got: " ++ toString port)
    else .ok ()

/-- `IsActive`, traced: the second component lists the keys queried with
`LLen`, in order.  Transcribed from the Go method body: resolve `waitList`,
resolve `activeList`, `LLen` each, then `result := (waitLen + activeLen) > 0`;
every error return in Go carries the response `\x7bResult: false\x7d` together
with the non-nil error. -/
def IsActiveT (req : ScaledObjectRef) (store : Store) :
    (IsActiveResponse × Option String) × List String :=
  match getMetadataValue req.scalerMetadata "waitList" with
  | .error e => ((⟨false⟩, some e), [])
  | .ok waitList =>
    match getMetadataValue req.scalerMetadata "activeList" with
    | .error e => ((⟨false⟩, some e), [])
    | .ok activeList =>
      match store waitList with
      | .error e => ((⟨false⟩, some e), [waitList])
      | .ok waitLen =>
        match store activeList with
        | .error e => ((⟨false⟩, some e), [waitList, activeList])
        | .ok activeLen =>
          ((⟨decide (waitLen + activeLen > 0)⟩, none), [waitList, activeList])

/-- `IsActive` as the caller sees it: response plus Go error (`none` = nil). -/
def IsActive (req : ScaledObjectRef) (store : Store) : IsActiveResponse × Option String :=
  (IsActiveT req store).1

/-- `GetMetricSpec` from the source: ignores the request entirely and returns
the constant descriptor; the method never touches the store and never fails
(its Go body contains no `LLen` call and always returns a nil error). -/
def GetMetricSpec (_req : ScaledObjectRef) : GetMetricSpecResponse × Option String :=
  (⟨[⟨"bull_queue_length", 1⟩]⟩, none)

/-- `GetMetrics`, traced: resolve `waitList`, `activeList`, `maxPods`, parse
and check `maxPods > 0`, `LLen` both lists, then
`metricValue := min(waitLen + activeLen, maxPods)` written as in the source
(`if metricValue > maxPods then maxPods`).  Every error return in Go carries
the empty response `⟨[]⟩` together with the non-nil error. -/
def GetMetricsT (req : ScaledObjectRef) (store : Store) :
    (GetMetricsResponse × Option String) × List String :=
  match getMetadataValue req.scalerMetadata "waitList" with
  | .error e => ((⟨[]⟩, some e), [])
  | .ok waitList =>
    match getMetadataValue req.scalerMetadata "activeList" with
    | .error e => ((⟨[]⟩, some e), [])
    | .ok activeList =>
      match getMetadataValue req.scalerMetadata "maxPods" with
      | .error e => ((⟨[]⟩, some e), [])
      | .ok maxPodsStr =>
        match parseInt64 maxPodsStr with
        | none =>
          ((⟨[]⟩, some ("maxPods must be a positive integer, got: " ++ maxPodsStr)), [])
        | some maxPods =>
          if maxPods ≤ 0 then
            ((⟨[]⟩, some ("maxPods must be a positive integer, got: " ++ maxPodsStr)), [])
          else
            match store waitList with
            | .error e => ((⟨[]⟩, some e), [waitList])
            | .ok waitLen =>
              match store activeList with
              | .error e => ((⟨[]⟩, some e), [waitList, activeList])
              | .ok activeLen =>
                let total := waitLen + activeLen
                let metricValue := if total > maxPods then maxPods else total
                ((⟨[⟨"bull_queue_length", metricValue⟩]⟩, none), [waitList, activeList])

/-- `GetMetrics` as the caller sees it: response plus Go error. -/
def GetMetrics (req : ScaledObjectRef) (store : Store) : GetMetricsResponse × Option String :=
  (GetMetricsT req store).1

/-- Events observable during process startup, in the order `main` and
`NewServer` produce them. -/
inductive StartupEvent
  | listenerBound
  | storeConnected
  | serveStarted
deriving DecidableEq, Repr

/-- The process environment as `os.Getenv` sees it: a missing variable reads
as the empty string. -/
def EnvMap := String → String

/-- The startup sequence of `main` and `NewServer`, transcribed in order from
the source: `net.Listen` first (emitting `listenerBound` on success), then
`NewServer` (read `REDIS_HOST` and `REDIS_PORT` via `getEnv`, validate the
port, ping the store — each failure is `log.Fatalf`, i.e. exit status 1),
then `grpcServer.Serve`.  Returns the event trace and `some code` when the
process exits with `code`, `none` while it keeps serving. -/
def runMain (listenOk : Bool) (env : EnvMap) (pingOk : Bool) (serveOk : Bool) :
    List StartupEvent × Option Nat :=
  if ¬listenOk then ([], some 1)
  else
    if env "REDIS_HOST" = "" then ([.listenerBound], some 1)
    else if env "REDIS_PORT" = "" then ([.listenerBound], some 1)
    else
      match validatePortNumber (env "REDIS_PORT") with
      | .error _ => ([.listenerBound], some 1)
      | .ok _ =>
        if ¬pingOk then ([.listenerBound], some 1)
        else
          if serveOk then
            ([.listenerBound, .storeConnected, .serveStarted], none)
          else ([.listenerBound, .storeConnected, .serveStarted], some 1)

/-- A concrete metadata mapping holding exactly the three scaler keys. -/
def mkMd (wl al mp : String) : Metadata := fun k =>
  if k = "waitList" then some wl
  else if k = "activeList" then some al
  else if k = "maxPods" then some mp
  else none

/-- A concrete request around `mkMd`. -/
def mkReq (wl al mp : String) : ScaledObjectRef :=
  ⟨"default", "demo", mkMd wl al mp⟩

/-- A store whose every list is empty (all `LLen` reads succeed with 0). -/
def store0 : Store := fun _ => .ok 0

/-- A store with fixed lengths for two named lists and empty elsewhere. -/
def mkStore (wl : String) (w : Int) (al : String) (a : Int) : Store := fun k =>
  if k = wl then .ok w else if k = al then .ok a else .ok 0

/-- A concrete valid environment for startup. -/
def env0 : EnvMap := fun k =>
  if k = "REDIS_HOST" then "localhost"
  else if k = "REDIS_PORT" then "6379"
  else ""

/-!  Helper lemmas about the metadata resolver and the two traced operations.
Each one pins down one branch of the Go control flow.  -/

theorem gmv_ok_iff (md : Metadata) (key v : String) :
    getMetadataValue md key = Except.ok v ↔ (md key = some v ∧ v ≠ "") := by
  unfold getMetadataValue
  cases h : md key with
  | none => simp
  | some w =>
    by_cases hw : w = ""
    · subst hw
      simp only [if_pos rfl, Option.some.injEq]
      constructor
      · intro hv; cases hv
      · intro hv; exact absurd hv.1.symm hv.2
    · simp only [if_neg hw, Except.ok.injEq, Option.some.injEq]
      constructor
      · intro hv; exact ⟨hv, hv ▸ hw⟩
      · intro hv; exact hv.1

theorem gmv_err_iff (md : Metadata) (key : String) :
    getMetadataValue md key =
      Except.error ("required metadata " ++ key ++ " is missing or empty") ↔
    (md key = none ∨ md key = some "") := by
  unfold getMetadataValue
  cases h : md key with
  | none => simp
  | some w => by_cases hw : w = "" <;> simp [hw]

theorem gmv_cases (md : Metadata) (key : String) :
    (∃ v, getMetadataValue md key = Except.ok v) ∨
    getMetadataValue md key =
      Except.error ("required metadata " ++ key ++ " is missing or empty") := by
  unfold getMetadataValue
  cases h : md key with
  | none => right; rfl
  | some w =>
    by_cases hw : w = ""
    · right; simp [hw]
    · left; exact ⟨w, by simp [hw]⟩

theorem IsActiveT_err_wl (req : ScaledObjectRef) (store : Store) (e : String)
    (h : getMetadataValue req.scalerMetadata "waitList" = .error e) :
    IsActiveT req store = ((⟨false⟩, some e), []) := by
  unfold IsActiveT; simp only [h]

theorem IsActiveT_err_al (req : ScaledObjectRef) (store : Store) (wl e : String)
    (h1 : getMetadataValue req.scalerMetadata "waitList" = .ok wl)
    (h2 : getMetadataValue req.scalerMetadata "activeList" = .error e) :
    IsActiveT req store = ((⟨false⟩, some e), []) := by
  unfold IsActiveT; simp only [h1, h2]

theorem IsActiveT_err_storew (req : ScaledObjectRef) (store : Store) (wl al e : String)
    (h1 : getMetadataValue req.scalerMetadata "waitList" = .ok wl)
    (h2 : getMetadataValue req.scalerMetadata "activeList" = .ok al)
    (h3 : store wl = .error e) :
    IsActiveT req store = ((⟨false⟩, some e), [wl]) := by
  unfold IsActiveT; simp only [h1, h2, h3]

theorem IsActiveT_err_storea (req : ScaledObjectRef) (store : Store) (wl al e : String)
    (w : Int)
    (h1 : getMetadataValue req.scalerMetadata "waitList" = .ok wl)
    (h2 : getMetadataValue req.scalerMetadata "activeList" = .ok al)
    (h3 : store wl = .ok w) (h4 : store al = .error e) :
    IsActiveT req store = ((⟨false⟩, some e), [wl, al]) := by
  unfold IsActiveT; simp only [h1, h2, h3, h4]

theorem IsActiveT_ok (req : ScaledObjectRef) (store : Store) (wl al : String)
    (w a : Int)
    (h1 : getMetadataValue req.scalerMetadata "waitList" = .ok wl)
    (h2 : getMetadataValue req.scalerMetadata "activeList" = .ok al)
    (h3 : store wl = .ok w) (h4 : store al = .ok a) :
    IsActiveT req store = ((⟨decide (w + a > 0)⟩, none), [wl, al]) := by
  unfold IsActiveT; simp only [h1, h2, h3, h4]

theorem GetMetricsT_err_wl (req : ScaledObjectRef) (store : Store) (e : String)
    (h : getMetadataValue req.scalerMetadata "waitList" = .error e) :
    GetMetricsT req store = ((⟨[]⟩, some e), []) := by
  unfold GetMetricsT; simp only [h]

theorem GetMetricsT_err_al (req : ScaledObjectRef) (store : Store) (wl e : String)
    (h1 : getMetadataValue req.scalerMetadata "waitList" = .ok wl)
    (h2 : getMetadataValue req.scalerMetadata "activeList" = .error e) :
    GetMetricsT req store = ((⟨[]⟩, some e), []) := by
  unfold GetMetricsT; simp only [h1, h2]

theorem GetMetricsT_err_mp (req : ScaledObjectRef) (store : Store) (wl al e : String)
    (h1 : getMetadataValue req.scalerMetadata "waitList" = .ok wl)
    (h2 : getMetadataValue req.scalerMetadata "activeList" = .ok al)
    (h3 : getMetadataValue req.scalerMetadata "maxPods" = .error e) :
    GetMetricsT req store = ((⟨[]⟩, some e), []) := by
  unfold GetMetricsT; simp only [h1, h2, h3]

theorem GetMetricsT_parse_fail (req : ScaledObjectRef) (store : Store) (wl al mp : String)
    (h1 : getMetadataValue req.scalerMetadata "waitList" = .ok wl)
    (h2 : getMetadataValue req.scalerMetadata "activeList" = .ok al)
    (h3 : getMetadataValue req.scalerMetadata "maxPods" = .ok mp)
    (h4 : parseInt64 mp = none) :
    GetMetricsT req store =
      ((⟨[]⟩, some ("maxPods must be a positive integer, got: " ++ mp)), []) := by
  unfold GetMetricsT; simp only [h1, h2, h3, h4]

theorem GetMetricsT_nonpositive (req : ScaledObjectRef) (store : Store) (wl al mp : String)
    (M : Int)
    (h1 : getMetadataValue req.scalerMetadata "waitList" = .ok wl)
    (h2 : getMetadataValue req.scalerMetadata "activeList" = .ok al)
    (h3 : getMetadataValue req.scalerMetadata "maxPods" = .ok mp)
    (h4 : parseInt64 mp = some M) (h5 : M ≤ 0) :
    GetMetricsT req store =
      ((⟨[]⟩, some ("maxPods must be a positive integer, got: " ++ mp)), []) := by
  unfold GetMetricsT; simp only [h1, h2, h3, h4]; rw [if_pos h5]

theorem GetMetricsT_err_storew (req : ScaledObjectRef) (store : Store) (wl al mp e : String)
    (M : Int)
    (h1 : getMetadataValue req.scalerMetadata "waitList" = .ok wl)
    (h2 : getMetadataValue req.scalerMetadata "activeList" = .ok al)
    (h3 : getMetadataValue req.scalerMetadata "maxPods" = .ok mp)
    (h4 : parseInt64 mp = some M) (h5 : 0 < M)
    (h6 : store wl = .error e) :
    GetMetricsT req store = ((⟨[]⟩, some e), [wl]) := by
  unfold GetMetricsT; simp only [h1, h2, h3, h4]
  rw [if_neg (by omega)]; simp only [h6]

theorem GetMetricsT_err_storea (req : ScaledObjectRef) (store : Store) (wl al mp e : String)
    (M w : Int)
    (h1 : getMetadataValue req.scalerMetadata "waitList" = .ok wl)
    (h2 : getMetadataValue req.scalerMetadata "activeList" = .ok al)
    (h3 : getMetadataValue req.scalerMetadata "maxPods" = .ok mp)
    (h4 : parseInt64 mp = some M) (h5 : 0 < M)
    (h6 : store wl = .ok w) (h7 : store al = .error e) :
    GetMetricsT req store = ((⟨[]⟩, some e), [wl, al]) := by
  unfold GetMetricsT; simp only [h1, h2, h3, h4]
  rw [if_neg (by omega)]; simp only [h6, h7]

theorem GetMetricsT_ok (req : ScaledObjectRef) (store : Store) (wl al mp : String)
    (M w a : Int)
    (h1 : getMetadataValue req.scalerMetadata "waitList" = .ok wl)
    (h2 : getMetadataValue req.scalerMetadata "activeList" = .ok al)
    (h3 : getMetadataValue req.scalerMetadata "maxPods" = .ok mp)
    (h4 : parseInt64 mp = some M) (h5 : 0 < M)
    (h6 : store wl = .ok w) (h7 : store al = .ok a) :
    GetMetricsT req store =
      ((⟨[⟨"bull_queue_length", if w + a > M then M else w + a⟩]⟩, none), [wl, al]) := by
  unfold GetMetricsT; simp only [h1, h2, h3, h4]
  rw [if_neg (by omega)]; simp only [h6, h7]

/-- C1: for every `GetMetrics` call whose metadata resolves (non-empty
`waitList` and `activeList`, `maxPods` parsing to a strictly positive
integer `M`) and whose store reads succeed with lengths `w` and `a`, the
reported metric value is `min (w + a) M`: the counts are summed first and
the ceiling is applied only to the sum, and when `w + a ≤ M` the reported
value is exactly `w + a`. -/
theorem getMetrics_value_is_min_of_sum (req : ScaledObjectRef) (store : Store)
    (wl al mp : String) (M w a : Int)
    (hwl : getMetadataValue req.scalerMetadata "waitList" = .ok wl)
    (hal : getMetadataValue req.scalerMetadata "activeList" = .ok al)
    (hmp : getMetadataValue req.scalerMetadata "maxPods" = .ok mp)
    (hM : parseInt64 mp = some M) (hMpos : 0 < M)
    (hw : store wl = .ok w) (ha : store al = .ok a) :
    GetMetrics req store = (⟨[⟨"bull_queue_length", min (w + a) M⟩]⟩, none) ∧
    (w + a ≤ M →
      GetMetrics req store = (⟨[⟨"bull_queue_length", w + a⟩]⟩, none)) := by
  have hmain : GetMetrics req store =
      (⟨[⟨"bull_queue_length", min (w + a) M⟩]⟩, none) := by
    unfold GetMetrics
    rw [GetMetricsT_ok req store wl al mp M w a hwl hal hmp hM hMpos hw ha]
    have : (if w + a > M then M else w + a) = min (w + a) M := by
      split <;> omega
    rw [this]
  refine ⟨hmain, fun hle => ?_⟩
  rw [hmain, min_eq_left hle]

/-- Witness for C1: pending 3, in-flight 2, ceiling 10 reports 5. -/
theorem getMetrics_value_is_min_of_sum_instance :
    GetMetrics (mkReq "wait" "active" "10") (mkStore "wait" 3 "active" 2) =
      (⟨[⟨"bull_queue_length", min (3 + 2) 10⟩]⟩, none) ∧
    ((3 : Int) + 2 ≤ 10 →
      GetMetrics (mkReq "wait" "active" "10") (mkStore "wait" 3 "active" 2) =
        (⟨[⟨"bull_queue_length", (3 : Int) + 2⟩]⟩, none)) :=
  getMetrics_value_is_min_of_sum (mkReq "wait" "active" "10")
    (mkStore "wait" 3 "active" 2) "wait" "active" "10" 10 3 2
    rfl rfl rfl (by decide) (by decide) rfl rfl

/-- C2: for every `IsActive` call whose metadata resolves and whose store
reads succeed with lengths `w` and `a`, the returned boolean is
`(w + a) > 0` with a nil error: false when both are 0, true whenever the
total is positive. -/
theorem isActive_iff_total_positive (req : ScaledObjectRef) (store : Store)
    (wl al : String) (w a : Int)
    (hwl : getMetadataValue req.scalerMetadata "waitList" = .ok wl)
    (hal : getMetadataValue req.scalerMetadata "activeList" = .ok al)
    (hw : store wl = .ok w) (ha : store al = .ok a) :
    IsActive req store = (⟨decide (w + a > 0)⟩, none) ∧
    (w = 0 ∧ a = 0 → (IsActive req store).1.result = false) ∧
    (w + a > 0 → (IsActive req store).1.result = true) := by
  have hmain : IsActive req store = (⟨decide (w + a > 0)⟩, none) := by
    unfold IsActive
    rw [IsActiveT_ok req store wl al w a hwl hal hw ha]
  refine ⟨hmain, fun hz => ?_, fun hp => ?_⟩
  · rw [hmain]; simp [hz.1, hz.2]
  · rw [hmain]; simpa using hp

/-- Witness for C2: both lists empty gives false; 1 waiting job gives true. -/
theorem isActive_iff_total_positive_instance :
    IsActive (mkReq "wait" "active" "10") store0 = (⟨decide ((0 : Int) + 0 > 0)⟩, none) ∧
    ((0 : Int) = 0 ∧ (0 : Int) = 0 →
      (IsActive (mkReq "wait" "active" "10") store0).1.result = false) ∧
    ((0 : Int) + 0 > 0 →
      (IsActive (mkReq "wait" "active" "10") store0).1.result = true) :=
  isActive_iff_total_positive (mkReq "wait" "active" "10") store0
    "wait" "active" 0 0 rfl rfl rfl rfl

/-- C8: `GetMetricSpec` returns the same constant descriptor — metric name
"bull_queue_length", target size 1 — for every request, with a nil error;
the operation takes no store argument at all because its Go body never
touches the Redis client. -/
theorem getMetricSpec_constant (req : ScaledObjectRef) :
    GetMetricSpec req =
      (⟨[⟨"bull_queue_length", 1⟩]⟩, none) := rfl

/-- C9: metadata resolution returns the mapped value exactly when the key is
present with a non-empty value, and otherwise fails with the error naming
the missing key; an empty value behaves like an absent key, and no default
is ever substituted (an `ok` result always is the mapped value). -/
theorem getMetadataValue_contract (md : Metadata) (key : String) :
    (∀ v, getMetadataValue md key = .ok v ↔ (md key = some v ∧ v ≠ "")) ∧
    ((md key = none ∨ md key = some "") ↔
      getMetadataValue md key =
        .error ("required metadata " ++ key ++ " is missing or empty")) :=
  ⟨fun v => gmv_ok_iff md key v, (gmv_err_iff md key).symm⟩

/-- C3, counterexample: with a valid environment and a failing store ping,
`main` does exit with status 1, but only after the TCP listener has been
bound — `net.Listen` at the top of `main` runs before `NewServer`'s ping —
so "exits before the listening socket is bound" is false on the code. -/
theorem startup_listener_binds_before_ping_cex :
    (runMain true env0 false true).2 = some 1 ∧
    StartupEvent.listenerBound ∈ (runMain true env0 false true).1 := by
  constructor
  · rfl
  · show StartupEvent.listenerBound ∈ [StartupEvent.listenerBound]
    exact List.mem_singleton.mpr rfl

/-- C3, amended: if the startup ping to the store fails (with the listener
bound and valid `REDIS_HOST`/`REDIS_PORT`), the process exits with status 1
before `grpcServer.Serve` is ever invoked — no request is ever served — but
the listening socket has already been bound when the ping runs. -/
theorem ping_failure_exits_before_serve (env : EnvMap) (serveOk : Bool)
    (hhost : env "REDIS_HOST" ≠ "") (hport : env "REDIS_PORT" ≠ "")
    (hvalid : validatePortNumber (env "REDIS_PORT") = .ok ()) :
    runMain true env false serveOk = ([.listenerBound], some 1) ∧
    StartupEvent.serveStarted ∉ (runMain true env false serveOk).1 ∧
    StartupEvent.listenerBound ∈ (runMain true env false serveOk).1 := by
  have h : runMain true env false serveOk = ([.listenerBound], some 1) := by
    unfold runMain
    simp [hhost, hport, hvalid]
  refine ⟨h, ?_, ?_⟩ <;> rw [h]
  · intro hmem
    simp at hmem
  · exact List.mem_singleton.mpr rfl

/-- Witness for the amended C3 at a concrete environment. -/
theorem ping_failure_exits_before_serve_instance :
    runMain true env0 false true = ([.listenerBound], some 1) ∧
    StartupEvent.serveStarted ∉ (runMain true env0 false true).1 ∧
    StartupEvent.listenerBound ∈ (runMain true env0 false true).1 :=
  ping_failure_exits_before_serve env0 true (by decide) (by decide) rfl

/-- C4, counterexample: `GetMetricSpec` called with metadata containing none
of the three keys succeeds with a nil error (it validates nothing), and
`IsActive` with an empty `maxPods` value also succeeds — so it is false
that each of the three operations requires all three keys. -/
theorem operations_require_all_keys_cex :
    (GetMetricSpec ⟨"default", "demo", fun _ => none⟩).2 = none ∧
    (GetMetricSpec ⟨"default", "demo", fun _ => none⟩).1 =
      ⟨[⟨"bull_queue_length", 1⟩]⟩ ∧
    (IsActive (mkReq "wait" "active" "") store0).2 = none := by
  exact ⟨rfl, rfl, rfl⟩

/-- C4, amended: each operation validates exactly the keys it uses —
`IsActive` requires `waitList` and `activeList`, `GetMetrics` requires
`waitList`, `activeList` and a `maxPods` parsing to a positive integer,
and `GetMetricSpec` requires nothing and never fails; a missing or
malformed required key makes the owning operation return a validation
error rather than applying a default. -/
theorem operations_validate_their_keys (req : ScaledObjectRef) (store : Store) :
    ((req.scalerMetadata "waitList" = none ∨ req.scalerMetadata "waitList" = some "" ∨
      req.scalerMetadata "activeList" = none ∨ req.scalerMetadata "activeList" = some "") →
      ∃ e, (IsActive req store).2 = some e) ∧
    ((req.scalerMetadata "waitList" = none ∨ req.scalerMetadata "waitList" = some "" ∨
      req.scalerMetadata "activeList" = none ∨ req.scalerMetadata "activeList" = some "" ∨
      req.scalerMetadata "maxPods" = none ∨
      (∃ s, req.scalerMetadata "maxPods" = some s ∧
        ∀ M, parseInt64 s = some M → M ≤ 0)) →
      ∃ e, (GetMetrics req store).2 = some e) ∧
    ((GetMetricSpec req).2 = none) := by
  refine ⟨?_, ?_, rfl⟩
  · intro h
    rcases gmv_cases req.scalerMetadata "waitList" with ⟨wv, hwv⟩ | hwe
    · rcases gmv_cases req.scalerMetadata "activeList" with ⟨av, hav⟩ | hae
      · have hw2 := (gmv_ok_iff _ _ _).mp hwv
        have ha2 := (gmv_ok_iff _ _ _).mp hav
        rcases h with h | h | h | h
        · rw [hw2.1] at h; exact Option.noConfusion h
        · rw [hw2.1] at h; exact absurd (Option.some.inj h) hw2.2
        · rw [ha2.1] at h; exact Option.noConfusion h
        · rw [ha2.1] at h; exact absurd (Option.some.inj h) ha2.2
      · exact ⟨_, by unfold IsActive; rw [IsActiveT_err_al req store wv _ hwv hae]⟩
    · exact ⟨_, by unfold IsActive; rw [IsActiveT_err_wl req store _ hwe]⟩
  · intro h
    rcases gmv_cases req.scalerMetadata "waitList" with ⟨wv, hwv⟩ | hwe
    · rcases gmv_cases req.scalerMetadata "activeList" with ⟨av, hav⟩ | hae
      · rcases gmv_cases req.scalerMetadata "maxPods" with ⟨mv, hmv⟩ | hme
        · have hw2 := (gmv_ok_iff _ _ _).mp hwv
          have ha2 := (gmv_ok_iff _ _ _).mp hav
          have hm2 := (gmv_ok_iff _ _ _).mp hmv
          rcases h with h | h | h | h | h | ⟨s, hs, hnp⟩
          · rw [hw2.1] at h; exact Option.noConfusion h
          · rw [hw2.1] at h; exact absurd (Option.some.inj h) hw2.2
          · rw [ha2.1] at h; exact Option.noConfusion h
          · rw [ha2.1] at h; exact absurd (Option.some.inj h) ha2.2
          · rw [hm2.1] at h; exact Option.noConfusion h
          · have hsv : s = mv := by
              rw [hm2.1] at hs
              exact (Option.some.inj hs).symm
            cases hp : parseInt64 mv with
            | none =>
              exact ⟨_, by
                unfold GetMetrics
                rw [GetMetricsT_parse_fail req store wv av mv hwv hav hmv hp]⟩
            | some M =>
              have hM : M ≤ 0 := by
                refine hnp M ?_
                rw [hsv]
                exact hp
              exact ⟨_, by
                unfold GetMetrics
                rw [GetMetricsT_nonpositive req store wv av mv M hwv hav hmv hp hM]⟩
        · exact ⟨_, by unfold GetMetrics; rw [GetMetricsT_err_mp req store wv av _ hwv hav hme]⟩
      · exact ⟨_, by unfold GetMetrics; rw [GetMetricsT_err_al req store wv _ hwv hae]⟩
    · exact ⟨_, by unfold GetMetrics; rw [GetMetricsT_err_wl req store _ hwe]⟩

/-- C5: whenever metadata resolution fails for `IsActive` (either queue key
missing or empty) or for `GetMetrics` (any of the three keys missing or
empty, or `maxPods` not a positive integer), the call returns the
validation error and its trace of store reads is empty: no `LLen` query is
ever issued for that call. -/
theorem validation_failure_prevents_store_reads (req : ScaledObjectRef) (store : Store) :
    ((req.scalerMetadata "waitList" = none ∨ req.scalerMetadata "waitList" = some "" ∨
      req.scalerMetadata "activeList" = none ∨ req.scalerMetadata "activeList" = some "") →
      (IsActiveT req store).2 = [] ∧ (IsActive req store).2.isSome = true) ∧
    ((req.scalerMetadata "waitList" = none ∨ req.scalerMetadata "waitList" = some "" ∨
      req.scalerMetadata "activeList" = none ∨ req.scalerMetadata "activeList" = some "" ∨
      req.scalerMetadata "maxPods" = none ∨
      (∃ s, req.scalerMetadata "maxPods" = some s ∧
        ∀ M, parseInt64 s = some M → M ≤ 0)) →
      (GetMetricsT req store).2 = [] ∧ (GetMetrics req store).2.isSome = true) := by
  constructor
  · intro h
    rcases gmv_cases req.scalerMetadata "waitList" with ⟨wv, hwv⟩ | hwe
    · rcases gmv_cases req.scalerMetadata "activeList" with ⟨av, hav⟩ | hae
      · have hw2 := (gmv_ok_iff _ _ _).mp hwv
        have ha2 := (gmv_ok_iff _ _ _).mp hav
        rcases h with h | h | h | h
        · rw [hw2.1] at h; exact Option.noConfusion h
        · rw [hw2.1] at h; exact absurd (Option.some.inj h) hw2.2
        · rw [ha2.1] at h; exact Option.noConfusion h
        · rw [ha2.1] at h; exact absurd (Option.some.inj h) ha2.2
      · have he := IsActiveT_err_al req store wv _ hwv hae
        exact ⟨by rw [he], by unfold IsActive; rw [he]; rfl⟩
    · have he := IsActiveT_err_wl req store _ hwe
      exact ⟨by rw [he], by unfold IsActive; rw [he]; rfl⟩
  · intro h
    rcases gmv_cases req.scalerMetadata "waitList" with ⟨wv, hwv⟩ | hwe
    · rcases gmv_cases req.scalerMetadata "activeList" with ⟨av, hav⟩ | hae
      · rcases gmv_cases req.scalerMetadata "maxPods" with ⟨mv, hmv⟩ | hme
        · have hw2 := (gmv_ok_iff _ _ _).mp hwv
          have ha2 := (gmv_ok_iff _ _ _).mp hav
          have hm2 := (gmv_ok_iff _ _ _).mp hmv
          rcases h with h | h | h | h | h | ⟨s, hs, hnp⟩
          · rw [hw2.1] at h; exact Option.noConfusion h
          · rw [hw2.1] at h; exact absurd (Option.some.inj h) hw2.2
          · rw [ha2.1] at h; exact Option.noConfusion h
          · rw [ha2.1] at h; exact absurd (Option.some.inj h) ha2.2
          · rw [hm2.1] at h; exact Option.noConfusion h
          · have hsv : s = mv := by
              rw [hm2.1] at hs
              exact (Option.some.inj hs).symm
            cases hp : parseInt64 mv with
            | none =>
              have he := GetMetricsT_parse_fail req store wv av mv hwv hav hmv hp
              exact ⟨by rw [he], by unfold GetMetrics; rw [he]; rfl⟩
            | some M =>
              have hM : M ≤ 0 := by
                refine hnp M ?_
                rw [hsv]
                exact hp
              have he := GetMetricsT_nonpositive req store wv av mv M hwv hav hmv hp hM
              exact ⟨by rw [he], by unfold GetMetrics; rw [he]; rfl⟩
        · have he := GetMetricsT_err_mp req store wv av _ hwv hav hme
          exact ⟨by rw [he], by unfold GetMetrics; rw [he]; rfl⟩
      · have he := GetMetricsT_err_al req store wv _ hwv hae
        exact ⟨by rw [he], by unfold GetMetrics; rw [he]; rfl⟩
    · have he := GetMetricsT_err_wl req store _ hwe
      exact ⟨by rw [he], by unfold GetMetrics; rw [he]; rfl⟩

/-- C6: with both queue keys resolving and both store reads succeeding,
`GetMetrics` returns the invalid-ceiling error exactly when the `maxPods`
string does not parse as a strictly positive 64-bit integer; concretely,
"0", "-5" and "abc" are rejected with that error while "1" and "1000000"
are accepted. -/
theorem maxPods_positivity_gate (req : ScaledObjectRef) (store : Store)
    (wl al mp : String) (w a : Int)
    (hwl : getMetadataValue req.scalerMetadata "waitList" = .ok wl)
    (hal : getMetadataValue req.scalerMetadata "activeList" = .ok al)
    (hmp : req.scalerMetadata "maxPods" = some mp) (hne : mp ≠ "")
    (hw : store wl = .ok w) (ha : store al = .ok a) :
    ((GetMetrics req store).2 =
        some ("maxPods must be a positive integer, got: " ++ mp) ↔
      (∀ M, parseInt64 mp = some M → M ≤ 0)) ∧
    parseInt64 "0" = some 0 ∧ parseInt64 "-5" = some (-5) ∧
    parseInt64 "abc" = none ∧
    parseInt64 "1" = some 1 ∧ parseInt64 "1000000" = some 1000000 ∧
    (GetMetrics (mkReq "wait" "active" "0") store0).2 =
      some "maxPods must be a positive integer, got: 0" ∧
    (GetMetrics (mkReq "wait" "active" "-5") store0).2 =
      some "maxPods must be a positive integer, got: -5" ∧
    (GetMetrics (mkReq "wait" "active" "abc") store0).2 =
      some "maxPods must be a positive integer, got: abc" ∧
    (GetMetrics (mkReq "wait" "active" "1") store0).2 = none ∧
    (GetMetrics (mkReq "wait" "active" "1000000") store0).2 = none := by
  have hmpo : getMetadataValue req.scalerMetadata "maxPods" = .ok mp :=
    (gmv_ok_iff _ _ _).mpr ⟨hmp, hne⟩
  refine ⟨?_, by decide, by decide, by decide, by decide, by decide,
    by decide, by decide, by decide, by decide, by decide⟩
  constructor
  · intro herr M hpM
    by_contra hM
    have hok := GetMetricsT_ok req store wl al mp M w a hwl hal hmpo hpM
      (by omega) hw ha
    unfold GetMetrics at herr
    rw [hok] at herr
    exact Option.noConfusion herr
  · intro hnp
    cases hp : parseInt64 mp with
    | none =>
      have he := GetMetricsT_parse_fail req store wl al mp hwl hal hmpo hp
      unfold GetMetrics
      rw [he]
    | some M =>
      have he := GetMetricsT_nonpositive req store wl al mp M hwl hal hmpo hp (hnp M hp)
      unfold GetMetrics
      rw [he]

/-- Witness for C6 at `maxPods = "7"` with empty lists. -/
theorem maxPods_positivity_gate_instance :
    ((GetMetrics (mkReq "wait" "active" "7") store0).2 =
        some ("maxPods must be a positive integer, got: " ++ "7") ↔
      (∀ M, parseInt64 "7" = some M → M ≤ 0)) ∧
    parseInt64 "0" = some 0 ∧ parseInt64 "-5" = some (-5) ∧
    parseInt64 "abc" = none ∧
    parseInt64 "1" = some 1 ∧ parseInt64 "1000000" = some 1000000 ∧
    (GetMetrics (mkReq "wait" "active" "0") store0).2 =
      some "maxPods must be a positive integer, got: 0" ∧
    (GetMetrics (mkReq "wait" "active" "-5") store0).2 =
      some "maxPods must be a positive integer, got: -5" ∧
    (GetMetrics (mkReq "wait" "active" "abc") store0).2 =
      some "maxPods must be a positive integer, got: abc" ∧
    (GetMetrics (mkReq "wait" "active" "1") store0).2 = none ∧
    (GetMetrics (mkReq "wait" "active" "1000000") store0).2 = none :=
  maxPods_positivity_gate (mkReq "wait" "active" "7") store0
    "wait" "active" "7" 0 0 rfl rfl rfl (by decide) rfl rfl

/-- C7: whenever `IsActive` fails — a queue key fails to resolve or an
executed store read fails — the returned Go error is non-nil; and a nil
error (a successful response) can only arise when both resolutions and both
store reads succeeded, with the boolean computed from the two lengths, so
an error is never silently turned into a successful `false`. -/
theorem isActive_never_masks_errors (req : ScaledObjectRef) (store : Store) :
    (((∃ e, getMetadataValue req.scalerMetadata "waitList" = .error e) ∨
      (∃ e, getMetadataValue req.scalerMetadata "activeList" = .error e) ∨
      (∃ wl e, getMetadataValue req.scalerMetadata "waitList" = .ok wl ∧
        store wl = .error e) ∨
      (∃ wl al w e, getMetadataValue req.scalerMetadata "waitList" = .ok wl ∧
        getMetadataValue req.scalerMetadata "activeList" = .ok al ∧
        store wl = .ok w ∧ store al = .error e)) →
      ∃ e, (IsActive req store).2 = some e) ∧
    ((IsActive req store).2 = none →
      ∃ wl al w a, getMetadataValue req.scalerMetadata "waitList" = .ok wl ∧
        getMetadataValue req.scalerMetadata "activeList" = .ok al ∧
        store wl = .ok w ∧ store al = .ok a ∧
        (IsActive req store).1.result = decide (w + a > 0)) := by
  constructor
  · intro h
    rcases h with ⟨e, he⟩ | ⟨e, he⟩ | ⟨wl, e, hwl, hse⟩ | ⟨wl, al, w, e, hwl, hal, hsw, hse⟩
    · exact ⟨e, by unfold IsActive; rw [IsActiveT_err_wl req store e he]⟩
    · cases hwl : getMetadataValue req.scalerMetadata "waitList" with
      | error e2 => exact ⟨e2, by unfold IsActive; rw [IsActiveT_err_wl req store e2 hwl]⟩
      | ok wl => exact ⟨e, by unfold IsActive; rw [IsActiveT_err_al req store wl e hwl he]⟩
    · cases hal : getMetadataValue req.scalerMetadata "activeList" with
      | error e2 => exact ⟨e2, by unfold IsActive; rw [IsActiveT_err_al req store wl e2 hwl hal]⟩
      | ok al => exact ⟨e, by unfold IsActive; rw [IsActiveT_err_storew req store wl al e hwl hal hse]⟩
    · exact ⟨e, by unfold IsActive; rw [IsActiveT_err_storea req store wl al e w hwl hal hsw hse]⟩
  · intro h
    cases hwl : getMetadataValue req.scalerMetadata "waitList" with
    | error e =>
      unfold IsActive at h
      rw [IsActiveT_err_wl req store e hwl] at h
      exact Option.noConfusion h
    | ok wl =>
      cases hal : getMetadataValue req.scalerMetadata "activeList" with
      | error e =>
        unfold IsActive at h
        rw [IsActiveT_err_al req store wl e hwl hal] at h
        exact Option.noConfusion h
      | ok al =>
        cases hsw : store wl with
        | error e =>
          unfold IsActive at h
          rw [IsActiveT_err_storew req store wl al e hwl hal hsw] at h
          exact Option.noConfusion h
        | ok w =>
          cases hsa : store al with
          | error e =>
            unfold IsActive at h
            rw [IsActiveT_err_storea req store wl al e w hwl hal hsw hsa] at h
            exact Option.noConfusion h
          | ok a =>
            refine ⟨wl, al, w, a, rfl, rfl, hsw, hsa, ?_⟩
            unfold IsActive
            rw [IsActiveT_ok req store wl al w a hwl hal hsw hsa]

/-- C10: when several required keys are missing or empty in one call, the
single error returned names the first missing key in the source's fixed
resolution order — `waitList`, then `activeList`, then `maxPods` for
`GetMetrics`, and `waitList` then `activeList` for `IsActive`; both
operations are functions of the request and store, so the same faulty
input always produces the same error. -/
theorem missing_key_priority_order (req : ScaledObjectRef) (store : Store) :
    ((req.scalerMetadata "waitList" = none ∨ req.scalerMetadata "waitList" = some "") →
      (IsActive req store).2 =
        some ("required metadata " ++ "waitList" ++ " is missing or empty") ∧
      (GetMetrics req store).2 =
        some ("required metadata " ++ "waitList" ++ " is missing or empty")) ∧
    (∀ wl, getMetadataValue req.scalerMetadata "waitList" = .ok wl →
      (req.scalerMetadata "activeList" = none ∨ req.scalerMetadata "activeList" = some "") →
      (IsActive req store).2 =
        some ("required metadata " ++ "activeList" ++ " is missing or empty") ∧
      (GetMetrics req store).2 =
        some ("required metadata " ++ "activeList" ++ " is missing or empty")) ∧
    (∀ wl al, getMetadataValue req.scalerMetadata "waitList" = .ok wl →
      getMetadataValue req.scalerMetadata "activeList" = .ok al →
      (req.scalerMetadata "maxPods" = none ∨ req.scalerMetadata "maxPods" = some "") →
      (GetMetrics req store).2 =
        some ("required metadata " ++ "maxPods" ++ " is missing or empty")) := by
  refine ⟨fun h => ?_, fun wl hwl h => ?_, fun wl al hwl hal h => ?_⟩
  · have he := (gmv_err_iff req.scalerMetadata "waitList").mpr h
    exact ⟨by unfold IsActive; rw [IsActiveT_err_wl req store _ he],
      by unfold GetMetrics; rw [GetMetricsT_err_wl req store _ he]⟩
  · have he := (gmv_err_iff req.scalerMetadata "activeList").mpr h
    exact ⟨by unfold IsActive; rw [IsActiveT_err_al req store wl _ hwl he],
      by unfold GetMetrics; rw [GetMetricsT_err_al req store wl _ hwl he]⟩
  · have he := (gmv_err_iff req.scalerMetadata "maxPods").mpr h
    unfold GetMetrics
    rw [GetMetricsT_err_mp req store wl al _ hwl hal he]
